import Mathlib

/-!
# A verification development for `server.c`

`server.c` is a fork-per-core TCP server.  `main` (the Manager) forks one
Worker per online core; each Worker (`start_worker`) creates its own
listening socket, registers it with epoll in edge-triggered mode and then
runs an accept/read/write event loop.

The embedding is shallow.  Every system call the C code issues is appended to
a log (`World.calls`), the values the operating system hands back are inputs
of the model (oracles), and the control flow of the C code is reproduced
branch for branch on those values.  A loop whose oracle is used up before the
loop has left is reported as `Status.starved`, never as finished.
-/

namespace Server

/-! ## Constants -/

/-- The `#define PORT 8080` of line 15. -/
def PORT : Nat := 8080

/-- The `#define MAX_EVENTS 10000` of line 16. -/
def MAX_EVENTS : Nat := 10000

/-- The `#define BUFFER_SIZE 1024` of line 17. -/
def BUFFER_SIZE : Nat := 1024

/-- Modelled from the spec: the value of `EXIT_FAILURE` in `stdlib.h`, a system
header that is not part of the repository (the failure exit status). -/
def EXIT_FAILURE : Int := 1

/-- Modelled from the spec: `EAGAIN` of the Linux `errno.h`, not part of the
repository (the would-block error number). -/
def EAGAIN : Int := 11

/-- Modelled from the spec: `EWOULDBLOCK` of the Linux `errno.h`, not part of
the repository; Linux defines it as `EAGAIN`. -/
def EWOULDBLOCK : Int := 11

/-- Modelled from the spec: `ECONNABORTED` of the Linux `errno.h`, an accept
error that is not would-block. -/
def ECONNABORTED : Int := 103

/-- Modelled from the spec: `O_NONBLOCK` of the Linux `fcntl.h` (octal 04000). -/
def O_NONBLOCK : Int := 2048

/-- Modelled from the spec: `SOL_SOCKET` of the Linux `sys/socket.h`. -/
def SOL_SOCKET : Int := 1

/-- Modelled from the spec: `SO_REUSEADDR` of the Linux `sys/socket.h`
(the address-reuse option name, 2). -/
def SO_REUSEADDR : Nat := 2

/-- Modelled from the spec: `SO_REUSEPORT` of the Linux `sys/socket.h`
(the port-sharing option name, 15). -/
def SO_REUSEPORT : Nat := 15

/-- Modelled from the spec: `AF_INET` of the Linux `sys/socket.h`. -/
def AF_INET : Int := 2

/-- Modelled from the spec: `SOCK_STREAM` of the Linux `sys/socket.h`. -/
def SOCK_STREAM : Int := 1

/-- Modelled from the spec: `INADDR_ANY` of `netinet/in.h` (all interfaces). -/
def INADDR_ANY : Nat := 0

/-- Modelled from the spec: `SOMAXCONN` of the Linux `sys/socket.h` (the
platform maximum backlog). -/
def SOMAXCONN : Int := 4096

/-- Modelled from the spec: `EPOLLIN` of `sys/epoll.h` (readable interest). -/
def EPOLLIN : Nat := 1

/-- Modelled from the spec: `EPOLLET` of `sys/epoll.h` (edge-triggered), bit 31. -/
def EPOLLET : Nat := 2147483648

/-! ## The fixed response -/

/-- The C string literal of lines 137-138, as text. -/
def response_text : String :=
  "HTTP/1.1 200 OK\r\nContent-Length: 13\r\nConnection: keep-alive\r\n\r\nHello, World!"

/-- The bytes of the literal of lines 137-138, without the terminating NUL. -/
def response : List Nat := response_text.toList.map Char.toNat

/-- The memory the pointer `response` refers to: the bytes of the literal
followed by the NUL the compiler appends. -/
def response_mem : List Nat := response ++ [0]

/-- The C library `strlen`: the number of bytes before the first NUL. -/
def strlen : List Nat → Nat
  | [] => 0
  | b :: bs => if b = 0 then 0 else strlen bs + 1

/-- The first `n` bytes of a buffer, what `write(fd, buf, n)` is asked to send. -/
def buf_take (n : Nat) (mem : List Nat) : List Nat := mem.take n

/-! ## System calls and the state they act on -/

/-- A system or library call issued by a Worker, with its arguments. -/
inductive Call where
  | socket (domain ty protocol : Int)
  | setsockopt (fd level : Int) (optname : Nat) (optval : Int)
  | bind (fd : Int) (family : Int) (addr port : Nat)
  | fcntl_getfl (fd : Int)
  | fcntl_setfl (fd flags : Int)
  | listen (fd backlog : Int)
  | epoll_create1 (flags : Int)
  | epoll_ctl_add (epfd fd : Int) (events : Nat) (data_fd : Int)
  | epoll_wait (epfd : Int) (maxevents : Nat) (timeout : Int)
  | accept (fd : Int)
  | read (fd : Int) (nbytes : Nat)
  | write (fd : Int) (buf : List Nat) (nbytes : Nat)
  | close (fd : Int)
  | perror (msg : String)
  | printf_listening (worker_id : Int) (port : Nat)
  | exit (status : Int)
  deriving DecidableEq, Repr

/-- The part of the process state the properties speak about: the connection
descriptors that are open, the descriptors in the epoll interest list, and
the log of calls issued so far (oldest first). -/
structure World where
  open_fds : List Int
  interest : List Int
  calls : List Call
  deriving DecidableEq, Repr

/-- How a piece of Worker code ended: still running (the loop or statement
finished and control goes on), the process exited with a status, or the
oracle ran out while the loop was about to issue its next call. -/
inductive Status where
  | running
  | exited (status : Int)
  | starved
  deriving DecidableEq, Repr

/-- Log one call. -/
def World.call (w : World) (c : Call) : World :=
  { w with calls := w.calls ++ [c] }

/-- Append calls to the log. -/
def World.log (w : World) (cs : List Call) : World :=
  { w with calls := w.calls ++ cs }

/-- The call `close(fd)`: the descriptor leaves the open set, and the kernel
drops a closed descriptor from every epoll interest list. -/
def World.close (w : World) (fd : Int) : World :=
  { open_fds := w.open_fds.filter (fun x => x ≠ fd),
    interest := w.interest.filter (fun x => x ≠ fd),
    calls := w.calls ++ [Call.close fd] }

/-- A successful `accept` that returned `fd`: the descriptor is now open. -/
def World.accepted (w : World) (fd : Int) : World :=
  { w with open_fds := fd :: w.open_fds }

/-- The call `epoll_ctl(epfd, EPOLL_CTL_ADD, fd, &ev)` returning `ret`: the
descriptor joins the interest list when the call succeeds (returns 0). -/
def World.epoll_add (w : World) (epfd fd : Int) (events : Nat) (data_fd : Int)
    (ret : Int) : World :=
  { w with
    interest := if ret = 0 then fd :: w.interest else w.interest,
    calls := w.calls ++ [Call.epoll_ctl_add epfd fd events data_fd] }

/-! ## `set_nonblocking` (lines 21-31) -/

/-- The function `set_nonblocking(fd)`.  `getfl` and `setfl` are the values the
two `fcntl` calls return.  The result is the new state and `some status` when
the function called `exit`. -/
def set_nonblocking (fd : Int) (getfl setfl : Int) (w : World) : World × Option Int :=
  let flags := getfl
  let w1 := w.call (Call.fcntl_getfl fd)
  if flags = -1 then
    ((w1.call (Call.perror "fcntl F_GETFL")).call (Call.exit EXIT_FAILURE), some EXIT_FAILURE)
  else
    let w2 := w1.call (Call.fcntl_setfl fd (Int.lor flags O_NONBLOCK))
    if setfl = -1 then
      ((w2.call (Call.perror "fcntl F_SETFL")).call (Call.exit EXIT_FAILURE), some EXIT_FAILURE)
    else
      (w2, none)

/-! ## The read loop (lines 117-142) -/

/-- The values one iteration of the read loop receives: what `read` returned,
`errno` after it, and what `write` returns if the iteration gets that far. -/
structure ReadRes where
  count : Int
  errno : Int
  wret : Int
  deriving DecidableEq, Repr

/-- The read loop of lines 122-142 on connection `client_fd`. -/
def read_loop (client_fd : Int) : List ReadRes → World → World × Status
  | [], w => (w, Status.starved)
  | r :: rs, w =>
    let w1 := w.call (Call.read client_fd BUFFER_SIZE)
    if r.count = -1 then
      if r.errno = EAGAIN then (w1, Status.running)
      else (w1.close client_fd, Status.running)
    else if r.count = 0 then
      (w1.close client_fd, Status.running)
    else
      let w2 := w1.call (Call.write client_fd (buf_take (strlen response_mem) response_mem)
        (strlen response_mem))
      let result := r.wret
      if result ≠ 0 then read_loop client_fd rs w2
      else read_loop client_fd rs w2

/-! ## The accept loop (lines 94-115) -/

/-- The values one iteration of the accept loop receives: what `accept`
returned, `errno` after it, what the two `fcntl` calls of `set_nonblocking`
return and what `epoll_ctl` returns, should the iteration get that far. -/
structure AcceptRes where
  client_fd : Int
  errno : Int
  getfl : Int
  setfl : Int
  ctl : Int
  deriving DecidableEq, Repr

/-- The accept loop of lines 96-115 on the listening socket `server_fd`. -/
def accept_loop (server_fd epoll_fd : Int) : List AcceptRes → World → World × Status
  | [], w => (w, Status.starved)
  | a :: as, w =>
    let client_fd := a.client_fd
    let w1 := w.call (Call.accept server_fd)
    if client_fd = -1 then
      if a.errno = EAGAIN ∨ a.errno = EWOULDBLOCK then (w1, Status.running)
      else (w1.call (Call.perror "accept"), Status.running)
    else
      match set_nonblocking client_fd a.getfl a.setfl (w1.accepted client_fd) with
      | (w2, some status) => (w2, Status.exited status)
      | (w2, none) =>
        accept_loop server_fd epoll_fd as
          (w2.epoll_add epoll_fd client_fd (EPOLLIN ||| EPOLLET) client_fd a.ctl)

/-! ## The event loop (lines 90-145) -/

/-- One entry of the array `epoll_wait` fills: the descriptor stored in
`data.fd`, and the values the loop run for this entry will receive
(`accepts` for the listening socket, `reads` for a connection). -/
structure Event where
  fd : Int
  accepts : List AcceptRes
  reads : List ReadRes
  deriving DecidableEq, Repr

/-- The `for` loop of lines 93-144 over the ready entries. -/
def handle_events (server_fd epoll_fd : Int) : List Event → World → World × Status
  | [], w => (w, Status.running)
  | e :: es, w =>
    if e.fd = server_fd then
      match accept_loop server_fd epoll_fd e.accepts w with
      | (w1, Status.running) => handle_events server_fd epoll_fd es w1
      | (w1, st) => (w1, st)
    else
      let client_fd := e.fd
      match read_loop client_fd e.reads w with
      | (w1, Status.running) => handle_events server_fd epoll_fd es w1
      | (w1, st) => (w1, st)

/-- What one `epoll_wait` call returns: the count `nfds` and the array. -/
structure Batch where
  nfds : Int
  events : List Event
  deriving DecidableEq, Repr

/-- The `while (1)` of lines 90-145, run for as many rounds as there are
batches.  `Status.running` at the end of the list means the Worker is back at
`epoll_wait`; the loop itself has no way out. -/
def event_loop (server_fd epoll_fd : Int) : List Batch → World → World × Status
  | [], w => (w, Status.running)
  | b :: bs, w =>
    let w1 := w.call (Call.epoll_wait epoll_fd MAX_EVENTS (-1))
    match handle_events server_fd epoll_fd (b.events.take b.nfds.toNat) w1 with
    | (w2, Status.running) => event_loop server_fd epoll_fd bs w2
    | (w2, st) => (w2, st)

/-! ## Worker start-up (lines 40-87) -/

/-- The values the start-up calls return, in the order they are made. -/
structure StartupRes where
  socket_ret : Int
  setsockopt_ret : Int
  bind_ret : Int
  getfl_ret : Int
  setfl_ret : Int
  listen_ret : Int
  epoll_create_ret : Int
  epoll_ctl_ret : Int
  deriving DecidableEq, Repr

/-- The option name the code passes to `setsockopt` on line 52. -/
def setsockopt_optname : Nat := SO_REUSEADDR ||| SO_REUSEPORT

/-- Lines 40-87 of `start_worker`: everything before the event loop. -/
def start_worker_setup (worker_id : Int) (r : StartupRes) (w : World) : World × Status :=
  let server_fd := r.socket_ret
  let w1 := w.call (Call.socket AF_INET SOCK_STREAM 0)
  if server_fd < 0 then
    ((w1.call (Call.perror "socket")).call (Call.exit EXIT_FAILURE), Status.exited EXIT_FAILURE)
  else
    let opt : Int := 1
    let w2 := w1.call (Call.setsockopt server_fd SOL_SOCKET setsockopt_optname opt)
    if r.setsockopt_ret ≠ 0 then
      ((w2.call (Call.perror "setsockopt")).call (Call.exit EXIT_FAILURE),
        Status.exited EXIT_FAILURE)
    else
      let w3 := w2.call (Call.bind server_fd AF_INET INADDR_ANY PORT)
      if r.bind_ret < 0 then
        ((w3.call (Call.perror "Bind failed")).call (Call.exit EXIT_FAILURE),
          Status.exited EXIT_FAILURE)
      else
        match set_nonblocking server_fd r.getfl_ret r.setfl_ret w3 with
        | (w4, some status) => (w4, Status.exited status)
        | (w4, none) =>
          let w5 := w4.call (Call.listen server_fd SOMAXCONN)
          if r.listen_ret < 0 then
            ((w5.call (Call.perror "listen")).call (Call.exit EXIT_FAILURE),
              Status.exited EXIT_FAILURE)
          else
            let epoll_fd := r.epoll_create_ret
            let w6 := w5.call (Call.epoll_create1 0)
            if epoll_fd = -1 then
              ((w6.call (Call.perror "epoll_create1")).call (Call.exit EXIT_FAILURE),
                Status.exited EXIT_FAILURE)
            else
              let w7 := w6.epoll_add epoll_fd server_fd (EPOLLIN ||| EPOLLET) server_fd
                r.epoll_ctl_ret
              if r.epoll_ctl_ret = -1 then
                ((w7.call (Call.perror "epoll_ctl: server_socket")).call
                  (Call.exit EXIT_FAILURE), Status.exited EXIT_FAILURE)
              else
                (w7.call (Call.printf_listening worker_id PORT), Status.running)

/-- The function `start_worker(worker_id)`: start-up, then the event loop.
The `close(server_fd)` of line 146 follows a loop that never ends and is
never reached. -/
def start_worker (worker_id : Int) (r : StartupRes) (batches : List Batch) (w : World) :
    World × Status :=
  match start_worker_setup worker_id r w with
  | (w1, Status.running) => event_loop r.socket_ret r.epoll_create_ret batches w1
  | (w1, st) => (w1, st)

/-- The state of a process that has just been created: nothing open, nothing
registered, no call made. -/
def World.fresh : World := { open_fds := [], interest := [], calls := [] }

/-! ## The Manager (lines 151-184) -/

/-- A call issued by `main`. -/
inductive MCall where
  | printf_cores (num_cores : Int)
  | fork
  | perror (msg : String)
  | sched_setaffinity (pid : Int) (cpuset : List Nat)
  | start_worker (worker_id : Int)
  | wait
  | exit (status : Int)
  | ret (status : Int)
  deriving DecidableEq, Repr

/-- How a process running `main` ended: `exit(status)`, `return status`, inside
`start_worker` as the Worker of the given identity (with the state and status
of that Worker), or out of oracle. -/
inductive MainEnd where
  | exited (status : Int)
  | returned (status : Int)
  | worker (worker_id : Int) (run : World × Status)
  | starved
  deriving DecidableEq, Repr

/-- Modelled from the spec: the macro `CPU_ZERO` of `sched.h`, not part of the
repository: the empty set of cores. -/
def CPU_ZERO : List Nat := []

/-- Modelled from the spec: the macro `CPU_SET` of `sched.h`, not part of the
repository: add one core to the set. -/
def CPU_SET (cpu : Nat) (set : List Nat) : List Nat := cpu :: set

set_option linter.unusedVariables false in
/-- The spawn loop of lines 157-175, seen from the process that runs it.
`fork_ret i` is what `fork` returns to this process in iteration `i` and
`aff_ret` what `sched_setaffinity` returns (the code drops it).  The result
is `none` when the loop finished and control reaches line 177.  The first
argument bounds the number of iterations.  Since `start_worker` has no
return path, the `exit(0)` of line 173 is never reached. -/
def spawn_loop (num_cores : Int) (fork_ret : Nat → Int) (aff_ret : Int) (r : StartupRes)
    (batches : List Batch) : Nat → Nat → List MCall → List MCall × Option MainEnd
  | 0, i, t => if (i : Int) < num_cores then (t, some MainEnd.starved) else (t, none)
  | fuel + 1, i, t =>
    if (i : Int) < num_cores then
      let pid := fork_ret i
      let t1 := t ++ [MCall.fork]
      if pid < 0 then
        (t1 ++ [MCall.perror "fork failed", MCall.exit EXIT_FAILURE],
          some (MainEnd.exited EXIT_FAILURE))
      else if pid = 0 then
        let cpuset := CPU_SET i CPU_ZERO
        let t2 := t1 ++ [MCall.sched_setaffinity 0 cpuset, MCall.start_worker i]
        (t2, some (MainEnd.worker i (start_worker i r batches World.fresh)))
      else
        spawn_loop num_cores fork_ret aff_ret r batches fuel (i + 1) t1
    else (t, none)

/-- The loop `while (wait(NULL) > 0);` of lines 180-181 and the `return 0`
after it.  The list holds the values `wait` returns. -/
def wait_loop : List Int → List MCall → List MCall × MainEnd
  | [], t => (t, MainEnd.starved)
  | r :: rs, t =>
    let t1 := t ++ [MCall.wait]
    if r > 0 then wait_loop rs t1
    else (t1 ++ [MCall.ret 0], MainEnd.returned 0)

/-- The function `main`.  `num_cores` is what `sysconf` returned. -/
def main (num_cores : Int) (fork_ret : Nat → Int) (aff_ret : Int) (r : StartupRes)
    (batches : List Batch) (waits : List Int) : List MCall × MainEnd :=
  let t0 := [MCall.printf_cores num_cores]
  match spawn_loop num_cores fork_ret aff_ret r batches num_cores.toNat 0 t0 with
  | (t, some e) => (t, e)
  | (t, none) => wait_loop waits t

/-! ## Environment models -/

/-- The two socket-level options of a socket that the start-up is concerned with. -/
structure SockOpts where
  reuseaddr : Bool
  reuseport : Bool
  deriving DecidableEq, Repr

/-- Modelled from the spec: the effect of one `setsockopt` at `SOL_SOCKET`
level in the kernel, which is not part of the repository: the option name
selects the one option that is set; a name that is neither leaves both as
they are. -/
def sock_setsockopt (o : SockOpts) (optname : Nat) (optval : Int) : SockOpts :=
  if optname = SO_REUSEADDR then { o with reuseaddr := decide (optval ≠ 0) }
  else if optname = SO_REUSEPORT then { o with reuseport := decide (optval ≠ 0) }
  else o

/-- The options of socket `fd` after a log of calls, starting from `o`. -/
def listener_options (fd : Int) : List Call → SockOpts → SockOpts
  | [], o => o
  | Call.setsockopt fd1 level optname optval :: cs, o =>
    if fd1 = fd ∧ level = SOL_SOCKET then
      listener_options fd cs (sock_setsockopt o optname optval)
    else listener_options fd cs o
  | _ :: cs, o => listener_options fd cs o

/-- The data part of `socket_reads`: full buffers while more than a buffer is
left, then the rest. -/
def socket_data (n : Nat) : List (Int × Int) :=
  List.replicate (n / BUFFER_SIZE) ((BUFFER_SIZE : Int), 0) ++
    (if n % BUFFER_SIZE = 0 then [] else [(((n % BUFFER_SIZE : Nat) : Int), 0)])

/-- Modelled from the spec: what successive `read` calls with a buffer of
`BUFFER_SIZE` bytes return (count and `errno`) on a non-blocking stream socket
that holds `n` unread bytes (kernel behaviour, not part of the repository):
full buffers while more than a buffer is left, then the rest, then `last`
(would-block while the peer is connected, 0 once it has closed). -/
def socket_reads (n : Nat) (last : Int × Int) : List (Int × Int) :=
  socket_data n ++ [last]

/-- The number of reads that drain `n` bytes: `n / BUFFER_SIZE`, rounded up. -/
def chunks (n : Nat) : Nat := (n + BUFFER_SIZE - 1) / BUFFER_SIZE

/-- The number of `write` calls on `fd` in a log. -/
def writes_on (fd : Int) (cs : List Call) : Nat :=
  (cs.filter (fun c => match c with
    | Call.write fd1 _ _ => decide (fd1 = fd)
    | _ => false)).length

/-- The number of `close` calls on `fd` in a log. -/
def closes_on (fd : Int) (cs : List Call) : Nat :=
  (cs.filter (fun c => decide (c = Call.close fd))).length

/-- The number of `fork` calls in a log of `main`. -/
def forks_in (cs : List MCall) : Nat :=
  (cs.filter (fun c => decide (c = MCall.fork))).length

/-- The log of `n` rounds of the read loop that each read data and wrote the
response: `read`, `write`, `read`, `write`, ... -/
def served (fd : Int) : Nat → List Call
  | 0 => []
  | n + 1 => Call.read fd BUFFER_SIZE :: Call.write fd response response.length :: served fd n

/-- The read part of an oracle entry: the values `read` itself produced. -/
def ReadRes.key (r : ReadRes) : Int × Int := (r.count, r.errno)

/-- Attach write return values to read results: the k-th write returns `f k`. -/
def with_wrets : List (Int × Int) → (Nat → Int) → List ReadRes
  | [], _ => []
  | (c, e) :: rs, f =>
    { count := c, errno := e, wret := f 0 } :: with_wrets rs (fun k => f (k + 1))

/-- The batch in which the listening socket is ready with one connection
pending: `accept` returns `fd`, both `fcntl` calls and `epoll_ctl` succeed,
the next `accept` reports would-block. -/
def accept_batch (server_fd fd flags : Int) : Batch :=
  { nfds := 1,
    events := [{ fd := server_fd,
                 accepts := [{ client_fd := fd, errno := 0, getfl := flags, setfl := 0, ctl := 0 },
                             { client_fd := -1, errno := EAGAIN, getfl := 0, setfl := 0, ctl := 0 }],
                 reads := [] }] }

/-- The batch in which connection `fd` is ready with a payload of `n` bytes
unread and the peer still connected; the k-th write returns `f k`. -/
def payload_batch (fd : Int) (n : Nat) (f : Nat → Int) : Batch :=
  { nfds := 1,
    events := [{ fd := fd, accepts := [],
                 reads := with_wrets (socket_reads n (-1, EAGAIN)) f }] }

/-- The batch in which connection `fd` is ready because the peer has closed:
nothing unread, `read` returns 0. -/
def peer_close_batch (fd : Int) : Batch :=
  { nfds := 1,
    events := [{ fd := fd, accepts := [],
                 reads := with_wrets (socket_reads 0 (0, 0)) (fun _ => 0) }] }

/-- A kept-alive session on one connection: it is accepted, a payload of `n1`
bytes arrives, then a second payload of `n2` bytes, then the peer closes. -/
def keepalive_session (server_fd fd flags : Int) (n1 n2 : Nat) (f1 f2 : Nat → Int) :
    List Batch :=
  [accept_batch server_fd fd flags, payload_batch fd n1 f1, payload_batch fd n2 f2,
    peer_close_batch fd]

/-- The log of the accept loop for connections that were all accepted and set
up: per connection `accept`, the two `fcntl` calls and `epoll_ctl`. -/
def accepted_log (server_fd epoll_fd : Int) : List AcceptRes → List Call
  | [] => []
  | a :: as =>
    Call.accept server_fd :: Call.fcntl_getfl a.client_fd ::
      Call.fcntl_setfl a.client_fd (Int.lor a.getfl O_NONBLOCK) ::
      Call.epoll_ctl_add epoll_fd a.client_fd (EPOLLIN ||| EPOLLET) a.client_fd ::
      accepted_log server_fd epoll_fd as

/-- The calls of a start-up in which every step succeeds, in the order of
lines 41-87: socket, setsockopt, bind, the two `fcntl` calls of
`set_nonblocking`, listen, epoll_create1, epoll_ctl, and the start-up line. -/
def setup_calls (worker_id : Int) (r : StartupRes) : List Call :=
  [Call.socket AF_INET SOCK_STREAM 0,
    Call.setsockopt r.socket_ret SOL_SOCKET setsockopt_optname 1,
    Call.bind r.socket_ret AF_INET INADDR_ANY PORT,
    Call.fcntl_getfl r.socket_ret,
    Call.fcntl_setfl r.socket_ret (Int.lor r.getfl_ret O_NONBLOCK),
    Call.listen r.socket_ret SOMAXCONN,
    Call.epoll_create1 0,
    Call.epoll_ctl_add r.epoll_create_ret r.socket_ret (EPOLLIN ||| EPOLLET) r.socket_ret,
    Call.printf_listening worker_id PORT]

/-- The Worker stopped during start-up right after the first `k` calls of
`setup_calls`: it printed `msg` with `perror` and called `exit(EXIT_FAILURE)`,
made no later call, and `start_worker` never reached the event loop. -/
def aborted_after (worker_id : Int) (r : StartupRes) (batches : List Batch) (w : World)
    (k : Nat) (msg : String) : Prop :=
  start_worker_setup worker_id r w =
      (w.log ((setup_calls worker_id r).take k ++ [Call.perror msg, Call.exit EXIT_FAILURE]),
        Status.exited EXIT_FAILURE) ∧
    start_worker worker_id r batches w = start_worker_setup worker_id r w

/-- Every check of the start-up passes: the conditions of lines 42, 52, 63,
23, 27, 68, 75 and 82 are all false. -/
def StartupRes.all_ok (r : StartupRes) : Prop :=
  0 ≤ r.socket_ret ∧ r.setsockopt_ret = 0 ∧ 0 ≤ r.bind_ret ∧ r.getfl_ret ≠ -1 ∧
    r.setfl_ret ≠ -1 ∧ 0 ≤ r.listen_ret ∧ r.epoll_create_ret ≠ -1 ∧ r.epoll_ctl_ret ≠ -1

/-! ## Lemmas on the response and the read loop -/

theorem strlen_response_mem : strlen response_mem = 76 := by decide

theorem response_length : response.length = 76 := by decide

theorem buf_take_full : buf_take 76 response_mem = response := by
  decide

theorem read_loop_data (fd : Int) (r : ReadRes) (rs : List ReadRes) (w : World)
    (h : 0 < r.count) :
    read_loop fd (r :: rs) w =
      read_loop fd rs ((w.call (Call.read fd BUFFER_SIZE)).call
        (Call.write fd response response.length)) := by
  have h1 : r.count ≠ -1 := by omega
  have h2 : r.count ≠ 0 := by omega
  simp [read_loop, h1, h2, buf_take_full, strlen_response_mem, response_length]

theorem read_loop_served (fd : Int) (pre rs : List ReadRes) (w : World)
    (hpre : ∀ r ∈ pre, 0 < r.count) :
    read_loop fd (pre ++ rs) w =
      read_loop fd rs { w with calls := w.calls ++ served fd pre.length } := by
  induction pre generalizing w with
  | nil => simp [served]
  | cons r pre ih =>
    have hr : 0 < r.count := hpre r (by simp)
    have hp : ∀ x ∈ pre, 0 < x.count := fun x hx => hpre x (by simp [hx])
    rw [List.cons_append, read_loop_data fd r _ w hr, ih _ hp]
    simp [World.call, served]

theorem read_loop_key (fd : Int) (rs rs2 : List ReadRes) (w : World)
    (h : rs.map ReadRes.key = rs2.map ReadRes.key) :
    read_loop fd rs w = read_loop fd rs2 w := by
  induction rs generalizing rs2 w with
  | nil =>
    cases rs2 with
    | nil => rfl
    | cons b bs => simp at h
  | cons a as ih =>
    cases rs2 with
    | nil => simp at h
    | cons b bs =>
      simp only [List.map_cons, List.cons.injEq, ReadRes.key, Prod.mk.injEq] at h
      obtain ⟨⟨hc, he⟩, ht⟩ := h
      simp only [read_loop, hc, he, ite_self]
      rw [ih bs _ ht]

theorem writes_on_append (fd : Int) (a b : List Call) :
    writes_on fd (a ++ b) = writes_on fd a + writes_on fd b := by
  simp [writes_on]

theorem closes_on_append (fd : Int) (a b : List Call) :
    closes_on fd (a ++ b) = closes_on fd a + closes_on fd b := by
  simp [closes_on]

theorem writes_on_served (fd : Int) (n : Nat) : writes_on fd (served fd n) = n := by
  induction n with
  | zero => rfl
  | succ n ih =>
    have : writes_on fd (served fd (n + 1)) = writes_on fd (served fd n) + 1 := by
      simp [served, writes_on]
    omega

theorem closes_on_served (fd : Int) (n : Nat) : closes_on fd (served fd n) = 0 := by
  induction n with
  | zero => rfl
  | succ n ih =>
    have : closes_on fd (served fd (n + 1)) = closes_on fd (served fd n) := by
      simp [served, closes_on]
    omega

/-! ## C1: the response -/

theorem read_loop_log (fd : Int) (pre rs : List ReadRes) (w : World)
    (hpre : ∀ r ∈ pre, 0 < r.count) :
    read_loop fd (pre ++ rs) w = read_loop fd rs (w.log (served fd pre.length)) :=
  read_loop_served fd pre rs w hpre

theorem read_loop_eof (fd : Int) (t : ReadRes) (rest : List ReadRes) (w : World)
    (ht : t.count = 0 ∨ (t.count = -1 ∧ t.errno ≠ EAGAIN)) :
    read_loop fd (t :: rest) w =
      ((w.log [Call.read fd BUFFER_SIZE]).close fd, Status.running) := by
  rcases ht with h0 | ⟨h1, h2⟩
  · simp [read_loop, h0, World.log, World.call]
  · simp [read_loop, h1, h2, World.log, World.call]

theorem read_loop_again (fd : Int) (t : ReadRes) (rest : List ReadRes) (w : World)
    (ht : t.count = -1 ∧ t.errno = EAGAIN) :
    read_loop fd (t :: rest) w = (w.log [Call.read fd BUFFER_SIZE], Status.running) := by
  simp [read_loop, ht.1, ht.2, World.log, World.call]

/-- C3: for every sequence of read results made of positive counts `pre`
followed by a first result `t` that is end-of-stream or an error (would-block
included), the read loop ends, its log is one `read` and one `write` of the
fixed response per positive count, then the last `read` (and the `close`
unless `t` is would-block), so the number of writes is the number of positive
reads; any other oracle with the same read results and arbitrary write
results gives the same run; and when `t` is would-block the connection is
still open and registered, whatever the writes returned. -/
theorem write_result_never_steers (fd : Int) (pre : List ReadRes) (t : ReadRes)
    (rest : List ReadRes) (w : World)
    (hpre : ∀ r ∈ pre, 0 < r.count) (ht : t.count = 0 ∨ t.count = -1) :
    (read_loop fd (pre ++ t :: rest) w).2 = Status.running ∧
      (read_loop fd (pre ++ t :: rest) w).1.calls =
        w.calls ++ served fd pre.length ++ Call.read fd BUFFER_SIZE ::
          (if t.count = -1 ∧ t.errno = EAGAIN then [] else [Call.close fd]) ∧
      writes_on fd (read_loop fd (pre ++ t :: rest) w).1.calls =
        writes_on fd w.calls + pre.length ∧
      (∀ rs2 : List ReadRes, rs2.map ReadRes.key = (pre ++ t :: rest).map ReadRes.key →
        read_loop fd rs2 w = read_loop fd (pre ++ t :: rest) w) ∧
      (t.count = -1 ∧ t.errno = EAGAIN →
        (read_loop fd (pre ++ t :: rest) w).1.open_fds = w.open_fds ∧
        (read_loop fd (pre ++ t :: rest) w).1.interest = w.interest) := by
  rw [read_loop_log fd pre _ w hpre]
  by_cases hb : t.count = -1 ∧ t.errno = EAGAIN
  · rw [read_loop_again fd t rest _ hb]
    refine ⟨rfl, ?_, ?_, ?_, ?_⟩
    · simp [World.log, hb]
    · simp [World.log, writes_on_append, writes_on_served]
      simp [writes_on]
    · intro rs2 h
      rw [read_loop_key fd rs2 _ w h, read_loop_log fd pre _ w hpre,
        read_loop_again fd t rest _ hb]
    · intro _
      simp [World.log]
  · have he : t.count = 0 ∨ (t.count = -1 ∧ t.errno ≠ EAGAIN) := by
      rcases ht with h0 | h1
      · exact Or.inl h0
      · exact Or.inr ⟨h1, fun h => hb ⟨h1, h⟩⟩
    rw [read_loop_eof fd t rest _ he]
    refine ⟨rfl, ?_, ?_, ?_, ?_⟩
    · simp [World.log, World.close, hb]
    · simp [World.log, World.close, writes_on_append, writes_on_served]
      simp [writes_on]
    · intro rs2 h
      rw [read_loop_key fd rs2 _ w h, read_loop_log fd pre _ w hpre,
        read_loop_eof fd t rest _ he]
    · intro h
      exact absurd h hb

/-- Witness of C3: two reads with data (one write returned 76, one failed with
-1), then would-block, on descriptor 5. -/
theorem write_result_never_steers_witness :
    (read_loop 5 ([ReadRes.mk 18 0 76, ReadRes.mk 7 0 (-1)] ++ ReadRes.mk (-1) EAGAIN 0 :: [])
        (World.mk [5] [3, 5] [])).2 = Status.running ∧
      writes_on 5 (read_loop 5
        ([ReadRes.mk 18 0 76, ReadRes.mk 7 0 (-1)] ++ ReadRes.mk (-1) EAGAIN 0 :: [])
        (World.mk [5] [3, 5] [])).1.calls = writes_on 5 [] + 2 :=
  have h := write_result_never_steers 5 [ReadRes.mk 18 0 76, ReadRes.mk 7 0 (-1)]
    (ReadRes.mk (-1) EAGAIN 0) [] (World.mk [5] [3, 5] [])
    (by decide) (by decide)
  ⟨h.1, h.2.2.1⟩

/-- C4: in the read loop, after any number of reads with data, a read that
returns 0 or fails with an error other than would-block makes the Worker
close the connection once (it leaves the open set and the interest list),
nothing is read or written after the `close`, and the `for` loop goes on with
the next ready entry; a read that reports would-block leaves the connection
open and registered and the `for` loop goes on as well.  A peer that
connects and closes without sending data gives the log `read`, `close`: one
close, no write, and the Worker is back at `epoll_wait`. -/
theorem read_end_closes_once (server_fd epoll_fd fd : Int) (pre : List ReadRes) (t : ReadRes)
    (rest : List ReadRes) (acc : List AcceptRes) (es : List Event) (w : World)
    (hfd : fd ≠ server_fd) (hpre : ∀ r ∈ pre, 0 < r.count) :
    (t.count = 0 ∨ (t.count = -1 ∧ t.errno ≠ EAGAIN) →
        read_loop fd (pre ++ t :: rest) w =
          ({ open_fds := w.open_fds.filter (fun x => x ≠ fd),
             interest := w.interest.filter (fun x => x ≠ fd),
             calls := w.calls ++ served fd pre.length ++
               [Call.read fd BUFFER_SIZE, Call.close fd] }, Status.running) ∧
        closes_on fd (read_loop fd (pre ++ t :: rest) w).1.calls = closes_on fd w.calls + 1 ∧
        fd ∉ (read_loop fd (pre ++ t :: rest) w).1.open_fds ∧
        fd ∉ (read_loop fd (pre ++ t :: rest) w).1.interest ∧
        handle_events server_fd epoll_fd (Event.mk fd acc (pre ++ t :: rest) :: es) w =
          handle_events server_fd epoll_fd es (read_loop fd (pre ++ t :: rest) w).1) ∧
      (t.count = -1 ∧ t.errno = EAGAIN →
        read_loop fd (pre ++ t :: rest) w =
          ({ open_fds := w.open_fds, interest := w.interest,
             calls := w.calls ++ served fd pre.length ++ [Call.read fd BUFFER_SIZE] },
            Status.running) ∧
        handle_events server_fd epoll_fd (Event.mk fd acc (pre ++ t :: rest) :: es) w =
          handle_events server_fd epoll_fd es (read_loop fd (pre ++ t :: rest) w).1) ∧
      (∀ e x : Int,
        event_loop server_fd epoll_fd [Batch.mk 1 [Event.mk fd acc (ReadRes.mk 0 e x :: rest)]] w =
          ({ open_fds := w.open_fds.filter (fun x => x ≠ fd),
             interest := w.interest.filter (fun x => x ≠ fd),
             calls := w.calls ++ [Call.epoll_wait epoll_fd MAX_EVENTS (-1),
               Call.read fd BUFFER_SIZE, Call.close fd] }, Status.running)) := by
  refine ⟨?_, ?_, ?_⟩
  · intro he
    have hrun : read_loop fd (pre ++ t :: rest) w =
        ({ open_fds := w.open_fds.filter (fun x => x ≠ fd),
           interest := w.interest.filter (fun x => x ≠ fd),
           calls := w.calls ++ served fd pre.length ++
             [Call.read fd BUFFER_SIZE, Call.close fd] }, Status.running) := by
      rw [read_loop_log fd pre _ w hpre, read_loop_eof fd t rest _ he]
      simp [World.log, World.close]
    refine ⟨hrun, ?_, ?_, ?_, ?_⟩
    · rw [hrun]
      simp [closes_on_append, closes_on_served]
      simp [closes_on]
    · rw [hrun]; simp
    · rw [hrun]; simp
    · simp [handle_events, hfd, hrun]
  · intro hb
    have hrun : read_loop fd (pre ++ t :: rest) w =
        ({ open_fds := w.open_fds, interest := w.interest,
           calls := w.calls ++ served fd pre.length ++ [Call.read fd BUFFER_SIZE] },
          Status.running) := by
      rw [read_loop_log fd pre _ w hpre, read_loop_again fd t rest _ hb]
      simp [World.log]
    refine ⟨hrun, ?_⟩
    simp [handle_events, hfd, hrun]
  · intro e x
    have h0 : (ReadRes.mk 0 e x).count = 0 ∨
        ((ReadRes.mk 0 e x).count = -1 ∧ (ReadRes.mk 0 e x).errno ≠ EAGAIN) := Or.inl rfl
    simp [event_loop, handle_events, hfd, read_loop_eof fd _ rest _ h0, World.log, World.close,
      World.call]

/-- Witness of C4: descriptor 5 (listener 3) sends one chunk and then closes. -/
theorem read_end_closes_once_witness :
    read_loop 5 ([ReadRes.mk 18 0 76] ++ ReadRes.mk 0 0 0 :: []) (World.mk [5] [3, 5] []) =
      ({ open_fds := [5].filter (fun x => x ≠ 5),
         interest := [3, 5].filter (fun x => x ≠ 5),
         calls := [] ++ served 5 [ReadRes.mk 18 0 76].length ++
           [Call.read 5 BUFFER_SIZE, Call.close 5] }, Status.running) :=
  ((read_end_closes_once 3 4 5 [ReadRes.mk 18 0 76] (ReadRes.mk 0 0 0) [] [] []
    (World.mk [5] [3, 5] []) (by decide) (by decide)).1 (Or.inl rfl)).1

/-! ## C2: payloads on a kept-alive connection -/

theorem with_wrets_key (ps : List (Int × Int)) (f : Nat → Int) :
    (with_wrets ps f).map ReadRes.key = ps := by
  induction ps generalizing f with
  | nil => rfl
  | cons p ps ih =>
    obtain ⟨c, e⟩ := p
    simp [with_wrets, ReadRes.key, ih]

theorem read_loop_with_wrets (fd : Int) (ps : List (Int × Int)) (f : Nat → Int) (w : World) :
    read_loop fd (with_wrets ps f) w =
      read_loop fd (ps.map (fun p => ReadRes.mk p.1 p.2 0)) w := by
  apply read_loop_key
  rw [with_wrets_key]
  simp [ReadRes.key, Function.comp_def]

theorem socket_data_length (n : Nat) : (socket_data n).length = chunks n := by
  unfold socket_data chunks BUFFER_SIZE
  split <;> simp <;> omega

theorem socket_data_pos (n : Nat) : ∀ p ∈ socket_data n, 0 < p.1 := by
  intro p hp
  unfold socket_data BUFFER_SIZE at hp
  rw [List.mem_append] at hp
  rcases hp with h | h
  · rw [List.mem_replicate] at h
    rw [h.2]
    decide
  · split at h
    · simp at h
    · simp only [List.mem_singleton] at h
      rw [h]
      simp only
      omega

theorem payload_run (fd : Int) (n : Nat) (last : Int × Int) (f : Nat → Int) (w : World) :
    read_loop fd (with_wrets (socket_reads n last) f) w =
      read_loop fd [ReadRes.mk last.1 last.2 0] (w.log (served fd (chunks n))) := by
  rw [read_loop_with_wrets, socket_reads, List.map_append]
  rw [read_loop_log fd _ _ w]
  · simp [socket_data_length]
  · intro r hr
    rw [List.mem_map] at hr
    obtain ⟨p, hp, rfl⟩ := hr
    exact socket_data_pos n p hp

theorem event_loop_payload (server_fd epoll_fd fd : Int) (n : Nat) (f : Nat → Int)
    (bs : List Batch) (w : World) (hfd : fd ≠ server_fd) :
    event_loop server_fd epoll_fd (payload_batch fd n f :: bs) w =
      event_loop server_fd epoll_fd bs
        (w.log (Call.epoll_wait epoll_fd MAX_EVENTS (-1) :: served fd (chunks n) ++
          [Call.read fd BUFFER_SIZE])) := by
  have hb : (ReadRes.mk (-1, EAGAIN).1 (-1, EAGAIN).2 0).count = -1 ∧
      (ReadRes.mk (-1, EAGAIN).1 (-1, EAGAIN).2 0).errno = EAGAIN := ⟨rfl, rfl⟩
  simp [event_loop, payload_batch, handle_events, hfd, payload_run,
    read_loop_again fd _ [] _ hb, World.log, World.call]

theorem event_loop_peer_close (server_fd epoll_fd fd : Int) (bs : List Batch) (w : World)
    (hfd : fd ≠ server_fd) :
    event_loop server_fd epoll_fd (peer_close_batch fd :: bs) w =
      event_loop server_fd epoll_fd bs
        ((w.log [Call.epoll_wait epoll_fd MAX_EVENTS (-1), Call.read fd BUFFER_SIZE]).close fd) := by
  have h0 : (ReadRes.mk (0, 0).1 (0, 0).2 0).count = 0 ∨
      ((ReadRes.mk (0, 0).1 (0, 0).2 0).count = -1 ∧
        (ReadRes.mk (0, 0).1 (0, 0).2 0).errno ≠ EAGAIN) := Or.inl rfl
  have hc : chunks 0 = 0 := by decide
  simp [event_loop, peer_close_batch, handle_events, hfd, payload_run,
    read_loop_eof fd _ [] _ h0, World.log, World.call, World.close, hc, served]

theorem event_loop_accept_one (server_fd epoll_fd fd flags : Int) (bs : List Batch) (w : World)
    (hfd : fd ≠ -1) (hflags : flags ≠ -1) :
    event_loop server_fd epoll_fd (accept_batch server_fd fd flags :: bs) w =
      event_loop server_fd epoll_fd bs
        { open_fds := fd :: w.open_fds,
          interest := fd :: w.interest,
          calls := w.calls ++ [Call.epoll_wait epoll_fd MAX_EVENTS (-1), Call.accept server_fd,
            Call.fcntl_getfl fd, Call.fcntl_setfl fd (Int.lor flags O_NONBLOCK),
            Call.epoll_ctl_add epoll_fd fd (EPOLLIN ||| EPOLLET) fd, Call.accept server_fd] } := by
  simp [event_loop, accept_batch, handle_events, accept_loop, set_nonblocking, hfd, hflags,
    World.call, World.accepted, World.epoll_add, EAGAIN]

theorem writes_on_cons_epoll_wait (fd : Int) (a : Int) (b : Nat) (c : Int) (cs : List Call) :
    writes_on fd (Call.epoll_wait a b c :: cs) = writes_on fd cs := by
  simp [writes_on]

theorem closes_on_cons_epoll_wait (fd : Int) (a : Int) (b : Nat) (c : Int) (cs : List Call) :
    closes_on fd (Call.epoll_wait a b c :: cs) = closes_on fd cs := by
  simp [closes_on]

theorem writes_on_cons_accept (fd : Int) (a : Int) (cs : List Call) :
    writes_on fd (Call.accept a :: cs) = writes_on fd cs := by
  simp [writes_on]

theorem closes_on_cons_accept (fd : Int) (a : Int) (cs : List Call) :
    closes_on fd (Call.accept a :: cs) = closes_on fd cs := by
  simp [closes_on]

theorem writes_on_cons_fcntl_getfl (fd : Int) (a : Int) (cs : List Call) :
    writes_on fd (Call.fcntl_getfl a :: cs) = writes_on fd cs := by
  simp [writes_on]

theorem closes_on_cons_fcntl_getfl (fd : Int) (a : Int) (cs : List Call) :
    closes_on fd (Call.fcntl_getfl a :: cs) = closes_on fd cs := by
  simp [closes_on]

theorem writes_on_cons_fcntl_setfl (fd : Int) (a b : Int) (cs : List Call) :
    writes_on fd (Call.fcntl_setfl a b :: cs) = writes_on fd cs := by
  simp [writes_on]

theorem closes_on_cons_fcntl_setfl (fd : Int) (a b : Int) (cs : List Call) :
    closes_on fd (Call.fcntl_setfl a b :: cs) = closes_on fd cs := by
  simp [closes_on]

theorem writes_on_cons_epoll_ctl_add (fd : Int) (a b : Int) (c : Nat) (d : Int) (cs : List Call) :
    writes_on fd (Call.epoll_ctl_add a b c d :: cs) = writes_on fd cs := by
  simp [writes_on]

theorem closes_on_cons_epoll_ctl_add (fd : Int) (a b : Int) (c : Nat) (d : Int) (cs : List Call) :
    closes_on fd (Call.epoll_ctl_add a b c d :: cs) = closes_on fd cs := by
  simp [closes_on]

theorem writes_on_cons_read (fd : Int) (a : Int) (b : Nat) (cs : List Call) :
    writes_on fd (Call.read a b :: cs) = writes_on fd cs := by
  simp [writes_on]

theorem closes_on_cons_read (fd : Int) (a : Int) (b : Nat) (cs : List Call) :
    closes_on fd (Call.read a b :: cs) = closes_on fd cs := by
  simp [closes_on]

theorem writes_on_cons_close (fd : Int) (a : Int) (cs : List Call) :
    writes_on fd (Call.close a :: cs) = writes_on fd cs := by
  simp [writes_on]

theorem closes_on_cons_close (fd : Int) (cs : List Call) :
    closes_on fd (Call.close fd :: cs) = closes_on fd cs + 1 := by
  simp [closes_on]

theorem writes_on_nil (fd : Int) : writes_on fd [] = 0 := rfl

theorem closes_on_nil (fd : Int) : closes_on fd [] = 0 := rfl

theorem event_loop_nil (server_fd epoll_fd : Int) (w : World) :
    event_loop server_fd epoll_fd [] w = (w, Status.running) := rfl

theorem writes_on_log (fd : Int) (w : World) (cs : List Call) :
    writes_on fd (w.log cs).calls = writes_on fd w.calls + writes_on fd cs := by
  simp [World.log, writes_on_append]

theorem chunks_small (n : Nat) (h0 : 0 < n) (h : n ≤ BUFFER_SIZE) : chunks n = 1 := by
  unfold chunks
  unfold BUFFER_SIZE at *
  omega

/-- C2, as stated, fails: a payload of 1025 bytes pending on connection 5 is
read in two reads (1024 bytes and 1 byte) and the fixed response is written
twice for it, not once. -/
theorem large_payload_answered_twice :
    (event_loop 3 4 [payload_batch 5 1025 (fun _ => 76)] (World.mk [5] [3, 5] [])).2 =
        Status.running ∧
      writes_on 5
        (event_loop 3 4 [payload_batch 5 1025 (fun _ => 76)] (World.mk [5] [3, 5] [])).1.calls
        = 2 ∧
      ¬ (∀ n : Nat, 0 < n →
        writes_on 5
          (event_loop 3 4 [payload_batch 5 n (fun _ => 76)] (World.mk [5] [3, 5] [])).1.calls
          = 1) := by
  have key : writes_on 5
      (event_loop 3 4 [payload_batch 5 1025 (fun _ => 76)] (World.mk [5] [3, 5] [])).1.calls
      = 2 := by
    rw [event_loop_payload 3 4 5 1025 _ [] _ (by decide)]
    simp only [event_loop_nil, writes_on_log]
    have hc : chunks 1025 = 2 := by decide
    rw [hc]
    decide
  refine ⟨?_, key, ?_⟩
  · rw [event_loop_payload 3 4 5 1025 _ [] _ (by decide)]
    rfl
  · intro h
    have h1 := h 1025 (by decide)
    rw [key] at h1
    exact absurd h1 (by decide)

/-- C2, amended: on a connection that was accepted and registered, a payload
of `n` bytes that is pending when the readiness event is handled is answered
once per `read`, that is `chunks n` times (`n / BUFFER_SIZE` rounded up), which
is exactly once when `1 ≤ n ≤ BUFFER_SIZE`; the same holds for a second
payload on the same connection, which stays open and registered in between;
and once the peer has closed, no further response is written and the open set
and the interest list are what they were before the connection was accepted.
The write results `f1`, `f2` are arbitrary. -/
theorem one_response_per_read_then_closed (server_fd epoll_fd fd flags : Int) (n1 n2 : Nat)
    (f1 f2 : Nat → Int) (w : World)
    (hfd : fd ≠ -1) (hsrv : fd ≠ server_fd) (hflags : flags ≠ -1)
    (hopen : fd ∉ w.open_fds) (hint : fd ∉ w.interest) (h1 : 0 < n1) (h2 : 0 < n2) :
    (event_loop server_fd epoll_fd (keepalive_session server_fd fd flags n1 n2 f1 f2) w).2 =
        Status.running ∧
      (event_loop server_fd epoll_fd
        ((keepalive_session server_fd fd flags n1 n2 f1 f2).take 1) w).1.open_fds =
          fd :: w.open_fds ∧
      (event_loop server_fd epoll_fd
        ((keepalive_session server_fd fd flags n1 n2 f1 f2).take 1) w).1.interest =
          fd :: w.interest ∧
      writes_on fd (event_loop server_fd epoll_fd
        ((keepalive_session server_fd fd flags n1 n2 f1 f2).take 2) w).1.calls =
          writes_on fd w.calls + chunks n1 ∧
      writes_on fd (event_loop server_fd epoll_fd
        ((keepalive_session server_fd fd flags n1 n2 f1 f2).take 3) w).1.calls =
          writes_on fd w.calls + chunks n1 + chunks n2 ∧
      (n1 ≤ BUFFER_SIZE → chunks n1 = 1) ∧
      (n2 ≤ BUFFER_SIZE → chunks n2 = 1) ∧
      fd ∈ (event_loop server_fd epoll_fd
        ((keepalive_session server_fd fd flags n1 n2 f1 f2).take 3) w).1.open_fds ∧
      fd ∈ (event_loop server_fd epoll_fd
        ((keepalive_session server_fd fd flags n1 n2 f1 f2).take 3) w).1.interest ∧
      writes_on fd (event_loop server_fd epoll_fd
        (keepalive_session server_fd fd flags n1 n2 f1 f2) w).1.calls =
          writes_on fd w.calls + chunks n1 + chunks n2 ∧
      closes_on fd (event_loop server_fd epoll_fd
        (keepalive_session server_fd fd flags n1 n2 f1 f2) w).1.calls =
          closes_on fd w.calls + 1 ∧
      (event_loop server_fd epoll_fd
        (keepalive_session server_fd fd flags n1 n2 f1 f2) w).1.open_fds = w.open_fds ∧
      (event_loop server_fd epoll_fd
        (keepalive_session server_fd fd flags n1 n2 f1 f2) w).1.interest = w.interest := by
  have hfo : w.open_fds.filter (fun x => x ≠ fd) = w.open_fds := by
    rw [List.filter_eq_self]
    intro a ha
    simp only [ne_eq, decide_not, Bool.not_eq_eq_eq_not, Bool.not_true, decide_eq_false_iff_not]
    rintro rfl
    exact hopen ha
  have hfi : w.interest.filter (fun x => x ≠ fd) = w.interest := by
    rw [List.filter_eq_self]
    intro a ha
    simp only [ne_eq, decide_not, Bool.not_eq_eq_eq_not, Bool.not_true, decide_eq_false_iff_not]
    rintro rfl
    exact hint ha
  simp only [keepalive_session, List.take, event_loop_accept_one _ _ _ _ _ _ hfd hflags,
    event_loop_payload _ _ _ _ _ _ _ hsrv, event_loop_peer_close _ _ _ _ _ hsrv,
    event_loop_nil]
  refine ⟨trivial, trivial, trivial, ?_, ?_, chunks_small n1 h1, chunks_small n2 h2, ?_, ?_,
    ?_, ?_, ?_, ?_⟩
  · simp only [World.log, writes_on_append, writes_on_served, writes_on_cons_epoll_wait, writes_on_cons_accept, writes_on_cons_fcntl_getfl, writes_on_cons_fcntl_setfl, writes_on_cons_epoll_ctl_add, writes_on_cons_read, writes_on_cons_close, writes_on_nil]
    omega
  · simp only [World.log, writes_on_append, writes_on_served, writes_on_cons_epoll_wait, writes_on_cons_accept, writes_on_cons_fcntl_getfl, writes_on_cons_fcntl_setfl, writes_on_cons_epoll_ctl_add, writes_on_cons_read, writes_on_cons_close, writes_on_nil]
    omega
  · simp [World.log]
  · simp [World.log]
  · simp only [World.log, World.close, writes_on_append, writes_on_served, writes_on_cons_epoll_wait, writes_on_cons_accept, writes_on_cons_fcntl_getfl, writes_on_cons_fcntl_setfl, writes_on_cons_epoll_ctl_add, writes_on_cons_read, writes_on_cons_close, writes_on_nil]
    omega
  · simp only [World.log, World.close, closes_on_append, closes_on_served, closes_on_cons_epoll_wait, closes_on_cons_accept, closes_on_cons_fcntl_getfl, closes_on_cons_fcntl_setfl, closes_on_cons_epoll_ctl_add, closes_on_cons_read, closes_on_cons_close, closes_on_nil]
  · simp only [World.log, World.close, List.filter_cons, ne_eq, not_true_eq_false,
      decide_False, Bool.false_eq_true, if_false]
    exact hfo
  · simp only [World.log, World.close, List.filter_cons, ne_eq, not_true_eq_false,
      decide_False, Bool.false_eq_true, if_false]
    exact hfi

/-- Witness of C2 (amended): listener 3, epoll descriptor 4, connection 5, two
payloads of 18 bytes. -/
theorem one_response_per_read_then_closed_witness :
    writes_on 5 (event_loop 3 4 (keepalive_session 3 5 2 18 18 (fun _ => 76) (fun _ => 76))
        (World.mk [] [3] [])).1.calls = writes_on 5 [] + chunks 18 + chunks 18 ∧
      (event_loop 3 4 (keepalive_session 3 5 2 18 18 (fun _ => 76) (fun _ => 76))
        (World.mk [] [3] [])).1.interest = [3] :=
  have h := one_response_per_read_then_closed 3 4 5 2 18 18 (fun _ => 76) (fun _ => 76)
    (World.mk [] [3] []) (by decide) (by decide) (by decide) (by decide) (by decide)
    (by decide) (by decide)
  ⟨h.2.2.2.2.2.2.2.2.2.1, h.2.2.2.2.2.2.2.2.2.2.2.2⟩

/-! ## C5: the accept loop -/

theorem accept_loop_ok (server_fd epoll_fd : Int) (a : AcceptRes) (as : List AcceptRes)
    (w : World) (h1 : a.client_fd ≠ -1) (h2 : a.getfl ≠ -1) (h3 : a.setfl ≠ -1) :
    accept_loop server_fd epoll_fd (a :: as) w =
      accept_loop server_fd epoll_fd as
        { open_fds := a.client_fd :: w.open_fds,
          interest := if a.ctl = 0 then a.client_fd :: w.interest else w.interest,
          calls := w.calls ++ [Call.accept server_fd, Call.fcntl_getfl a.client_fd,
            Call.fcntl_setfl a.client_fd (Int.lor a.getfl O_NONBLOCK),
            Call.epoll_ctl_add epoll_fd a.client_fd (EPOLLIN ||| EPOLLET) a.client_fd] } := by
  simp [accept_loop, set_nonblocking, h1, h2, h3, World.call, World.accepted, World.epoll_add]

theorem accept_loop_end (server_fd epoll_fd : Int) (t : AcceptRes) (rest : List AcceptRes)
    (w : World) (ht : t.client_fd = -1) :
    accept_loop server_fd epoll_fd (t :: rest) w =
      (w.log (Call.accept server_fd ::
        (if t.errno = EAGAIN ∨ t.errno = EWOULDBLOCK then [] else [Call.perror "accept"])),
        Status.running) := by
  by_cases h : t.errno = EAGAIN ∨ t.errno = EWOULDBLOCK
  · simp [accept_loop, ht, h, World.log, World.call]
  · simp [accept_loop, ht, h, World.log, World.call]

/-- C5, as stated, fails: with listener 3, when the first `accept` fails with
`ECONNABORTED` while connection 5 is pending behind it, the accept loop ends
after that one `accept`: no `accept` has reported would-block and connection
5 is neither accepted nor registered. -/
theorem accept_error_ends_accept_loop :
    accept_loop 3 4
        [AcceptRes.mk (-1) ECONNABORTED 0 0 0, AcceptRes.mk 5 0 2 0 0,
          AcceptRes.mk (-1) EAGAIN 0 0 0]
        (World.mk [] [3] []) =
      ({ open_fds := [], interest := [3],
         calls := [Call.accept 3, Call.perror "accept"] }, Status.running) ∧
      ECONNABORTED ≠ EAGAIN ∧ ECONNABORTED ≠ EWOULDBLOCK := by
  refine ⟨?_, by decide, by decide⟩
  rw [accept_loop_end 3 4 _ _ _ rfl]
  simp [World.log, ECONNABORTED, EAGAIN, EWOULDBLOCK]

/-- C5, amended: on a readiness event of the listening socket the Worker
calls `accept` until `accept` returns -1, be it would-block or any other error
(which is logged with `perror`).  When the connections accepted on the way
are `conns`, and for each of them both `fcntl` calls and `epoll_ctl` succeed,
then before the loop ends each one was, in order, accepted, switched to
non-blocking mode (`F_SETFL` with its flags or-ed with `O_NONBLOCK`) and added
to the epoll instance under its own descriptor with `EPOLLIN | EPOLLET`; all
of them are open and in the interest list. -/
theorem accept_loop_registers_all (server_fd epoll_fd : Int) (conns : List AcceptRes)
    (t : AcceptRes) (rest : List AcceptRes) (w : World)
    (hconns : ∀ a ∈ conns, a.client_fd ≠ -1 ∧ a.getfl ≠ -1 ∧ a.setfl ≠ -1 ∧ a.ctl = 0)
    (ht : t.client_fd = -1) :
    accept_loop server_fd epoll_fd (conns ++ t :: rest) w =
      ({ open_fds := (conns.map AcceptRes.client_fd).reverse ++ w.open_fds,
         interest := (conns.map AcceptRes.client_fd).reverse ++ w.interest,
         calls := w.calls ++ accepted_log server_fd epoll_fd conns ++
           Call.accept server_fd ::
             (if t.errno = EAGAIN ∨ t.errno = EWOULDBLOCK then []
              else [Call.perror "accept"]) }, Status.running) := by
  induction conns generalizing w with
  | nil =>
    rw [List.nil_append, accept_loop_end server_fd epoll_fd t rest w ht]
    simp [World.log, accepted_log]
  | cons a conns ih =>
    obtain ⟨h1, h2, h3, h4⟩ := hconns a (by simp)
    have hc : ∀ x ∈ conns, x.client_fd ≠ -1 ∧ x.getfl ≠ -1 ∧ x.setfl ≠ -1 ∧ x.ctl = 0 :=
      fun x hx => hconns x (by simp [hx])
    rw [List.cons_append, accept_loop_ok server_fd epoll_fd a _ w h1 h2 h3, ih _ hc]
    simp [accepted_log, h4]

/-- Witness of C5 (amended): listener 3, epoll descriptor 4, connections 5 and
6 pending, then would-block. -/
theorem accept_loop_registers_all_witness :
    accept_loop 3 4
        ([AcceptRes.mk 5 0 2 0 0, AcceptRes.mk 6 0 2 0 0] ++ AcceptRes.mk (-1) EAGAIN 0 0 0 :: [])
        (World.mk [] [3] []) =
      ({ open_fds := ([AcceptRes.mk 5 0 2 0 0, AcceptRes.mk 6 0 2 0 0].map
           AcceptRes.client_fd).reverse ++ [],
         interest := ([AcceptRes.mk 5 0 2 0 0, AcceptRes.mk 6 0 2 0 0].map
           AcceptRes.client_fd).reverse ++ [3],
         calls := [] ++ accepted_log 3 4 [AcceptRes.mk 5 0 2 0 0, AcceptRes.mk 6 0 2 0 0] ++
           Call.accept 3 ::
             (if (AcceptRes.mk (-1) EAGAIN 0 0 0).errno = EAGAIN ∨
                 (AcceptRes.mk (-1) EAGAIN 0 0 0).errno = EWOULDBLOCK then []
              else [Call.perror "accept"]) }, Status.running) :=
  accept_loop_registers_all 3 4 [AcceptRes.mk 5 0 2 0 0, AcceptRes.mk 6 0 2 0 0]
    (AcceptRes.mk (-1) EAGAIN 0 0 0) [] (World.mk [] [3] []) (by decide) rfl

/-! ## C6: what can end the Worker inside the event loop -/

theorem setup_fails_socket (worker_id : Int) (r : StartupRes) (batches : List Batch)
    (w : World) (hf : r.socket_ret < 0) :
    aborted_after worker_id r batches w 1 "socket" := by
  have hs : start_worker_setup worker_id r w =
      (w.log ((setup_calls worker_id r).take 1 ++
        [Call.perror "socket", Call.exit EXIT_FAILURE]), Status.exited EXIT_FAILURE) := by
    simp [start_worker_setup, set_nonblocking, setup_calls, World.log, World.call,
      World.epoll_add, hf]
  refine ⟨hs, ?_⟩
  simp [start_worker, hs]

theorem setup_fails_setsockopt (worker_id : Int) (r : StartupRes) (batches : List Batch)
    (w : World) (h0 : 0 ≤ r.socket_ret) (hf : r.setsockopt_ret ≠ 0) :
    aborted_after worker_id r batches w 2 "setsockopt" := by
  have hs : start_worker_setup worker_id r w =
      (w.log ((setup_calls worker_id r).take 2 ++
        [Call.perror "setsockopt", Call.exit EXIT_FAILURE]), Status.exited EXIT_FAILURE) := by
    simp [start_worker_setup, set_nonblocking, setup_calls, World.log, World.call,
      World.epoll_add, not_lt.mpr h0, hf]
  refine ⟨hs, ?_⟩
  simp [start_worker, hs]

theorem setup_fails_bind (worker_id : Int) (r : StartupRes) (batches : List Batch)
    (w : World) (h0 : 0 ≤ r.socket_ret) (h1 : r.setsockopt_ret = 0) (hf : r.bind_ret < 0) :
    aborted_after worker_id r batches w 3 "Bind failed" := by
  have hs : start_worker_setup worker_id r w =
      (w.log ((setup_calls worker_id r).take 3 ++
        [Call.perror "Bind failed", Call.exit EXIT_FAILURE]), Status.exited EXIT_FAILURE) := by
    simp [start_worker_setup, set_nonblocking, setup_calls, World.log, World.call,
      World.epoll_add, not_lt.mpr h0, h1, hf]
  refine ⟨hs, ?_⟩
  simp [start_worker, hs]

theorem setup_fails_getfl (worker_id : Int) (r : StartupRes) (batches : List Batch)
    (w : World) (h0 : 0 ≤ r.socket_ret) (h1 : r.setsockopt_ret = 0) (h2 : 0 ≤ r.bind_ret) (hf : r.getfl_ret = -1) :
    aborted_after worker_id r batches w 4 "fcntl F_GETFL" := by
  have hs : start_worker_setup worker_id r w =
      (w.log ((setup_calls worker_id r).take 4 ++
        [Call.perror "fcntl F_GETFL", Call.exit EXIT_FAILURE]), Status.exited EXIT_FAILURE) := by
    simp [start_worker_setup, set_nonblocking, setup_calls, World.log, World.call,
      World.epoll_add, not_lt.mpr h0, h1, not_lt.mpr h2, hf]
  refine ⟨hs, ?_⟩
  simp [start_worker, hs]

theorem setup_fails_setfl (worker_id : Int) (r : StartupRes) (batches : List Batch)
    (w : World) (h0 : 0 ≤ r.socket_ret) (h1 : r.setsockopt_ret = 0) (h2 : 0 ≤ r.bind_ret) (h3 : r.getfl_ret ≠ -1) (hf : r.setfl_ret = -1) :
    aborted_after worker_id r batches w 5 "fcntl F_SETFL" := by
  have hs : start_worker_setup worker_id r w =
      (w.log ((setup_calls worker_id r).take 5 ++
        [Call.perror "fcntl F_SETFL", Call.exit EXIT_FAILURE]), Status.exited EXIT_FAILURE) := by
    simp [start_worker_setup, set_nonblocking, setup_calls, World.log, World.call,
      World.epoll_add, not_lt.mpr h0, h1, not_lt.mpr h2, h3, hf]
  refine ⟨hs, ?_⟩
  simp [start_worker, hs]

theorem setup_fails_listen (worker_id : Int) (r : StartupRes) (batches : List Batch)
    (w : World) (h0 : 0 ≤ r.socket_ret) (h1 : r.setsockopt_ret = 0) (h2 : 0 ≤ r.bind_ret) (h3 : r.getfl_ret ≠ -1) (h4 : r.setfl_ret ≠ -1) (hf : r.listen_ret < 0) :
    aborted_after worker_id r batches w 6 "listen" := by
  have hs : start_worker_setup worker_id r w =
      (w.log ((setup_calls worker_id r).take 6 ++
        [Call.perror "listen", Call.exit EXIT_FAILURE]), Status.exited EXIT_FAILURE) := by
    simp [start_worker_setup, set_nonblocking, setup_calls, World.log, World.call,
      World.epoll_add, not_lt.mpr h0, h1, not_lt.mpr h2, h3, h4, hf]
  refine ⟨hs, ?_⟩
  simp [start_worker, hs]

theorem setup_fails_epoll_create (worker_id : Int) (r : StartupRes) (batches : List Batch)
    (w : World) (h0 : 0 ≤ r.socket_ret) (h1 : r.setsockopt_ret = 0) (h2 : 0 ≤ r.bind_ret) (h3 : r.getfl_ret ≠ -1) (h4 : r.setfl_ret ≠ -1) (h5 : 0 ≤ r.listen_ret) (hf : r.epoll_create_ret = -1) :
    aborted_after worker_id r batches w 7 "epoll_create1" := by
  have hs : start_worker_setup worker_id r w =
      (w.log ((setup_calls worker_id r).take 7 ++
        [Call.perror "epoll_create1", Call.exit EXIT_FAILURE]), Status.exited EXIT_FAILURE) := by
    simp [start_worker_setup, set_nonblocking, setup_calls, World.log, World.call,
      World.epoll_add, not_lt.mpr h0, h1, not_lt.mpr h2, h3, h4, not_lt.mpr h5, hf]
  refine ⟨hs, ?_⟩
  simp [start_worker, hs]

theorem setup_fails_epoll_ctl (worker_id : Int) (r : StartupRes) (batches : List Batch)
    (w : World) (h0 : 0 ≤ r.socket_ret) (h1 : r.setsockopt_ret = 0) (h2 : 0 ≤ r.bind_ret) (h3 : r.getfl_ret ≠ -1) (h4 : r.setfl_ret ≠ -1) (h5 : 0 ≤ r.listen_ret) (h6 : r.epoll_create_ret ≠ -1) (hf : r.epoll_ctl_ret = -1) :
    aborted_after worker_id r batches w 8 "epoll_ctl: server_socket" := by
  have hs : start_worker_setup worker_id r w =
      (w.log ((setup_calls worker_id r).take 8 ++
        [Call.perror "epoll_ctl: server_socket", Call.exit EXIT_FAILURE]), Status.exited EXIT_FAILURE) := by
    simp [start_worker_setup, set_nonblocking, setup_calls, World.log, World.call,
      World.epoll_add, not_lt.mpr h0, h1, not_lt.mpr h2, h3, h4, not_lt.mpr h5, h6, hf]
  refine ⟨hs, ?_⟩
  simp [start_worker, hs]

theorem setup_succeeds (worker_id : Int) (r : StartupRes) (w : World) (h : r.all_ok) :
    start_worker_setup worker_id r w =
      ({ open_fds := w.open_fds,
         interest := if r.epoll_ctl_ret = 0 then r.socket_ret :: w.interest else w.interest,
         calls := w.calls ++ setup_calls worker_id r }, Status.running) := by
  obtain ⟨h0, h1, h2, h3, h4, h5, h6, h7⟩ := h
  simp [start_worker_setup, set_nonblocking, setup_calls, World.call, World.epoll_add,
    not_lt.mpr h0, h1, not_lt.mpr h2, h3, h4, not_lt.mpr h5, h6, h7]

theorem setup_running_iff (worker_id : Int) (r : StartupRes) (w : World) :
    (start_worker_setup worker_id r w).2 = Status.running ↔ r.all_ok := by
  constructor
  · intro hrun
    by_cases h0 : r.socket_ret < 0
    · rw [(setup_fails_socket worker_id r [] w h0).1] at hrun; cases hrun
    by_cases h1 : r.setsockopt_ret ≠ 0
    · rw [(setup_fails_setsockopt worker_id r [] w (not_lt.mp h0) h1).1] at hrun; cases hrun
    by_cases h2 : r.bind_ret < 0
    · rw [(setup_fails_bind worker_id r [] w (not_lt.mp h0) (not_not.mp h1) h2).1] at hrun
      cases hrun
    by_cases h3 : r.getfl_ret = -1
    · rw [(setup_fails_getfl worker_id r [] w (not_lt.mp h0) (not_not.mp h1) (not_lt.mp h2)
        h3).1] at hrun
      cases hrun
    by_cases h4 : r.setfl_ret = -1
    · rw [(setup_fails_setfl worker_id r [] w (not_lt.mp h0) (not_not.mp h1) (not_lt.mp h2)
        h3 h4).1] at hrun
      cases hrun
    by_cases h5 : r.listen_ret < 0
    · rw [(setup_fails_listen worker_id r [] w (not_lt.mp h0) (not_not.mp h1) (not_lt.mp h2)
        h3 h4 h5).1] at hrun
      cases hrun
    by_cases h6 : r.epoll_create_ret = -1
    · rw [(setup_fails_epoll_create worker_id r [] w (not_lt.mp h0) (not_not.mp h1)
        (not_lt.mp h2) h3 h4 (not_lt.mp h5) h6).1] at hrun
      cases hrun
    by_cases h7 : r.epoll_ctl_ret = -1
    · rw [(setup_fails_epoll_ctl worker_id r [] w (not_lt.mp h0) (not_not.mp h1)
        (not_lt.mp h2) h3 h4 (not_lt.mp h5) h6 h7).1] at hrun
      cases hrun
    exact ⟨not_lt.mp h0, not_not.mp h1, not_lt.mp h2, h3, h4, not_lt.mp h5, h6, h7⟩
  · intro h
    rw [setup_succeeds worker_id r w h]

theorem setup_status (worker_id : Int) (r : StartupRes) (w : World) :
    (start_worker_setup worker_id r w).2 = Status.running ∨
      (start_worker_setup worker_id r w).2 = Status.exited EXIT_FAILURE := by
  by_cases h0 : r.socket_ret < 0
  · rw [(setup_fails_socket worker_id r [] w h0).1]; exact Or.inr rfl
  by_cases h1 : r.setsockopt_ret ≠ 0
  · rw [(setup_fails_setsockopt worker_id r [] w (not_lt.mp h0) h1).1]; exact Or.inr rfl
  by_cases h2 : r.bind_ret < 0
  · rw [(setup_fails_bind worker_id r [] w (not_lt.mp h0) (not_not.mp h1) h2).1]
    exact Or.inr rfl
  by_cases h3 : r.getfl_ret = -1
  · rw [(setup_fails_getfl worker_id r [] w (not_lt.mp h0) (not_not.mp h1) (not_lt.mp h2)
      h3).1]
    exact Or.inr rfl
  by_cases h4 : r.setfl_ret = -1
  · rw [(setup_fails_setfl worker_id r [] w (not_lt.mp h0) (not_not.mp h1) (not_lt.mp h2)
      h3 h4).1]
    exact Or.inr rfl
  by_cases h5 : r.listen_ret < 0
  · rw [(setup_fails_listen worker_id r [] w (not_lt.mp h0) (not_not.mp h1) (not_lt.mp h2)
      h3 h4 h5).1]
    exact Or.inr rfl
  by_cases h6 : r.epoll_create_ret = -1
  · rw [(setup_fails_epoll_create worker_id r [] w (not_lt.mp h0) (not_not.mp h1)
      (not_lt.mp h2) h3 h4 (not_lt.mp h5) h6).1]
    exact Or.inr rfl
  by_cases h7 : r.epoll_ctl_ret = -1
  · rw [(setup_fails_epoll_ctl worker_id r [] w (not_lt.mp h0) (not_not.mp h1)
      (not_lt.mp h2) h3 h4 (not_lt.mp h5) h6 h7).1]
    exact Or.inr rfl
  exact Or.inl ((setup_running_iff worker_id r w).mpr
    ⟨not_lt.mp h0, not_not.mp h1, not_lt.mp h2, h3, h4, not_lt.mp h5, h6, h7⟩)

theorem start_worker_of_exit (worker_id : Int) (r : StartupRes) (batches : List Batch)
    (w : World) (h : (start_worker_setup worker_id r w).2 = Status.exited EXIT_FAILURE) :
    start_worker worker_id r batches w = start_worker_setup worker_id r w := by
  rcases hres : start_worker_setup worker_id r w with ⟨w1, st⟩
  rw [hres] at h
  simp only at h
  subst h
  simp [start_worker, hres]

/-- C7: the option name the Worker passes to `setsockopt` is
`SO_REUSEADDR | SO_REUSEPORT`, which is 15, the name of `SO_REUSEPORT` alone
and not that of `SO_REUSEADDR` (2).  In a start-up where every call succeeds
(socket 3, epoll descriptor 4) the log holds no `setsockopt` for
`SO_REUSEADDR`, and the options of the listening socket are: port sharing
enabled, address reuse not enabled. -/
theorem setsockopt_sets_only_reuseport :
    setsockopt_optname = 15 ∧ setsockopt_optname = SO_REUSEPORT ∧
      setsockopt_optname ≠ SO_REUSEADDR ∧
      (start_worker_setup 0 (StartupRes.mk 3 0 0 2 0 0 4 0) World.fresh).2 = Status.running ∧
      (∀ v : Int, Call.setsockopt 3 SOL_SOCKET SO_REUSEADDR v ∉
        (start_worker_setup 0 (StartupRes.mk 3 0 0 2 0 0 4 0) World.fresh).1.calls) ∧
      Call.setsockopt 3 SOL_SOCKET SO_REUSEPORT 1 ∈
        (start_worker_setup 0 (StartupRes.mk 3 0 0 2 0 0 4 0) World.fresh).1.calls ∧
      listener_options 3
          (start_worker_setup 0 (StartupRes.mk 3 0 0 2 0 0 4 0) World.fresh).1.calls
          (SockOpts.mk false false) =
        SockOpts.mk false true := by
  have hok : (StartupRes.mk 3 0 0 2 0 0 4 0).all_ok := by
    unfold StartupRes.all_ok
    decide
  rw [setup_succeeds 0 _ World.fresh hok]
  refine ⟨by decide, by decide, by decide, rfl, ?_, ?_, ?_⟩
  · intro v
    simp [World.fresh, setup_calls, setsockopt_optname, SO_REUSEADDR, SO_REUSEPORT]
  · simp [World.fresh, setup_calls, setsockopt_optname, SO_REUSEADDR, SO_REUSEPORT]
  · simp [World.fresh, setup_calls, listener_options, sock_setsockopt, setsockopt_optname,
      SO_REUSEADDR, SO_REUSEPORT]

/-- C8: the start-up of a Worker issues its calls in the order socket,
setsockopt, bind, fcntl (get and set flags), listen, epoll_create1, epoll_ctl
(add the listening socket, `EPOLLIN | EPOLLET`).  For each step: when its
check fails after all earlier checks passed, the log is the calls up to and
including that step, then `perror` and `exit(EXIT_FAILURE)`; no later step is
made and `start_worker` ends there, without the event loop.  When all checks
pass the log is the whole list and `start_worker` goes on into the event
loop; the event loop is entered exactly in that case, any other case exits
with `EXIT_FAILURE`. -/
theorem startup_in_order_or_exit (worker_id : Int) (r : StartupRes) (batches : List Batch)
    (w : World) :
    (r.socket_ret < 0 → aborted_after worker_id r batches w 1 "socket") ∧
      (0 ≤ r.socket_ret → r.setsockopt_ret ≠ 0 →
        aborted_after worker_id r batches w 2 "setsockopt") ∧
      (0 ≤ r.socket_ret → r.setsockopt_ret = 0 → r.bind_ret < 0 →
        aborted_after worker_id r batches w 3 "Bind failed") ∧
      (0 ≤ r.socket_ret → r.setsockopt_ret = 0 → 0 ≤ r.bind_ret → r.getfl_ret = -1 →
        aborted_after worker_id r batches w 4 "fcntl F_GETFL") ∧
      (0 ≤ r.socket_ret → r.setsockopt_ret = 0 → 0 ≤ r.bind_ret → r.getfl_ret ≠ -1 →
        r.setfl_ret = -1 → aborted_after worker_id r batches w 5 "fcntl F_SETFL") ∧
      (0 ≤ r.socket_ret → r.setsockopt_ret = 0 → 0 ≤ r.bind_ret → r.getfl_ret ≠ -1 →
        r.setfl_ret ≠ -1 → r.listen_ret < 0 →
        aborted_after worker_id r batches w 6 "listen") ∧
      (0 ≤ r.socket_ret → r.setsockopt_ret = 0 → 0 ≤ r.bind_ret → r.getfl_ret ≠ -1 →
        r.setfl_ret ≠ -1 → 0 ≤ r.listen_ret → r.epoll_create_ret = -1 →
        aborted_after worker_id r batches w 7 "epoll_create1") ∧
      (0 ≤ r.socket_ret → r.setsockopt_ret = 0 → 0 ≤ r.bind_ret → r.getfl_ret ≠ -1 →
        r.setfl_ret ≠ -1 → 0 ≤ r.listen_ret → r.epoll_create_ret ≠ -1 →
        r.epoll_ctl_ret = -1 →
        aborted_after worker_id r batches w 8 "epoll_ctl: server_socket") ∧
      (r.all_ok →
        (start_worker_setup worker_id r w).2 = Status.running ∧
        (start_worker_setup worker_id r w).1.calls = w.calls ++ setup_calls worker_id r ∧
        start_worker worker_id r batches w =
          event_loop r.socket_ret r.epoll_create_ret batches
            (start_worker_setup worker_id r w).1) ∧
      ((start_worker_setup worker_id r w).2 = Status.running ↔ r.all_ok) ∧
      (¬ r.all_ok →
        (start_worker worker_id r batches w).2 = Status.exited EXIT_FAILURE ∧
        start_worker worker_id r batches w = start_worker_setup worker_id r w) := by
  refine ⟨setup_fails_socket worker_id r batches w,
    setup_fails_setsockopt worker_id r batches w,
    setup_fails_bind worker_id r batches w,
    setup_fails_getfl worker_id r batches w,
    setup_fails_setfl worker_id r batches w,
    setup_fails_listen worker_id r batches w,
    setup_fails_epoll_create worker_id r batches w,
    setup_fails_epoll_ctl worker_id r batches w, ?_,
    setup_running_iff worker_id r w, ?_⟩
  · intro h
    have hs := setup_succeeds worker_id r w h
    refine ⟨by rw [hs], by rw [hs], ?_⟩
    simp [start_worker, hs]
  · intro h
    have hx : (start_worker_setup worker_id r w).2 = Status.exited EXIT_FAILURE := by
      rcases setup_status worker_id r w with h1 | h1
      · exact absurd ((setup_running_iff worker_id r w).mp h1) h
      · exact h1
    have he := start_worker_of_exit worker_id r batches w hx
    exact ⟨by rw [he]; exact hx, he⟩

/-- Witness of C8: socket 3 is created and its option set, then `bind` fails. -/
theorem startup_in_order_or_exit_witness :
    aborted_after 0 (StartupRes.mk 3 0 (-1) 0 0 0 0 0)
      [Batch.mk 1 [Event.mk 3 [AcceptRes.mk (-1) EAGAIN 0 0 0] []]] World.fresh 3
      "Bind failed" :=
  (startup_in_order_or_exit 0 (StartupRes.mk 3 0 (-1) 0 0 0 0 0)
    [Batch.mk 1 [Event.mk 3 [AcceptRes.mk (-1) EAGAIN 0 0 0] []]] World.fresh).2.2.1
    (by decide) rfl (by decide)

/-! ## C9 and C10: the Manager -/

theorem wait_loop_no_child (x : Int) (waits : List Int) (t : List MCall) (hx : x ≤ 0) :
    wait_loop (x :: waits) t = (t ++ [MCall.wait, MCall.ret 0], MainEnd.returned 0) := by
  have h : ¬ (x > 0) := by omega
  simp [wait_loop, h]

/-- C10, as stated, fails: when `sysconf` reports -1 the Manager makes no
`fork`, its `wait` finds no child (returns -1) and `main` returns 0: success
status with zero Workers spawned, no failure exit and no fallback to one
Worker. -/
theorem failed_core_query_returns_success :
    main (-1) (fun _ => 100) 0 (StartupRes.mk 3 0 0 2 0 0 4 0) [] [-1] =
        ([MCall.printf_cores (-1), MCall.wait, MCall.ret 0], MainEnd.returned 0) ∧
      forks_in (main (-1) (fun _ => 100) 0 (StartupRes.mk 3 0 0 2 0 0 4 0) [] [-1]).1 = 0 := by
  have hm : main (-1) (fun _ => 100) 0 (StartupRes.mk 3 0 0 2 0 0 4 0) [] [-1] =
      ([MCall.printf_cores (-1), MCall.wait, MCall.ret 0], MainEnd.returned 0) := by
    simp [main, spawn_loop, wait_loop]
  refine ⟨hm, ?_⟩
  rw [hm]
  decide

/-- C10, amended: when `sysconf` reports a value below 1, the Manager neither
treats it as fatal nor falls back to one Worker: the spawn loop does not run,
no `fork` is made, and as soon as `wait` reports that there is no child (a
value that is not positive) `main` returns 0. -/
theorem nonpositive_core_count_spawns_nothing (n : Int) (fork_ret : Nat → Int) (aff_ret : Int)
    (r : StartupRes) (batches : List Batch) (x : Int) (waits : List Int)
    (hn : n < 1) (hx : x ≤ 0) :
    main n fork_ret aff_ret r batches (x :: waits) =
        ([MCall.printf_cores n, MCall.wait, MCall.ret 0], MainEnd.returned 0) ∧
      forks_in (main n fork_ret aff_ret r batches (x :: waits)).1 = 0 := by
  have h0 : n.toNat = 0 := by
    rw [Int.toNat_eq_zero]
    omega
  have hlt : ¬ (((0 : Nat) : Int) < n) := by
    simp only [Nat.cast_zero]
    omega
  have hm : main n fork_ret aff_ret r batches (x :: waits) =
      ([MCall.printf_cores n, MCall.wait, MCall.ret 0], MainEnd.returned 0) := by
    simp only [main, h0, spawn_loop, hlt, if_false]
    rw [wait_loop_no_child x waits _ hx]
    rfl
  refine ⟨hm, ?_⟩
  rw [hm]
  simp [forks_in]

/-- Witness of C10 (amended): `sysconf` reports 0 and `wait` returns -1. -/
theorem nonpositive_core_count_spawns_nothing_witness :
    main 0 (fun _ => 100) 0 (StartupRes.mk 3 0 0 2 0 0 4 0) [] (-1 :: []) =
      ([MCall.printf_cores 0, MCall.wait, MCall.ret 0], MainEnd.returned 0) :=
  (nonpositive_core_count_spawns_nothing 0 (fun _ => 100) 0 (StartupRes.mk 3 0 0 2 0 0 4 0) []
    (-1) [] (by decide) (by decide)).1

end Server
